import Mathlib

namespace FTE

/-! # Python string primitives

Structural (kernel-computable) models of the Python string operations used by
the source. Strings are handled through their character lists. -/

/-- Python `str.lower()` (ASCII case folding suffices for the source's keyword
lists, which are all ASCII). -/
def py_lower (s : String) : String :=
  String.mk (s.toList.map Char.toLower)

/-- Model: `sub.isPrefixOf l` at some position of `l`: Python's substring test
`sub in s`. The empty pattern is contained in every string, as in Python. -/
def is_sub : List Char → List Char → Bool
  | sub, [] => sub.isEmpty
  | sub, c :: rest => sub.isPrefixOf (c :: rest) || is_sub sub rest

/-- Python `sub in s` substring containment. -/
def py_in (sub s : String) : Bool :=
  is_sub sub.toList s.toList

/-- Helper for `py_split_ws`: accumulate the current word (reversed) while
scanning. -/
def words_aux : List Char → List Char → List String
  | cur, [] => if cur.isEmpty then [] else [String.mk cur.reverse]
  | cur, c :: rest =>
    if c.isWhitespace then
      (if cur.isEmpty then [] else [String.mk cur.reverse]) ++ words_aux [] rest
    else
      words_aux (c :: cur) rest

/-- Python `str.split()` with no separator: split on whitespace runs,
discarding empty fragments. -/
def py_split_ws (s : String) : List String :=
  words_aux [] s.toList

/-- Python `str.strip()`: remove leading and trailing whitespace. -/
def py_strip (s : String) : String :=
  String.mk (((s.toList.dropWhile Char.isWhitespace).reverse.dropWhile Char.isWhitespace).reverse)

/-- Counting core for `py_count`. The extra `Nat` is the number of characters
still to be skipped because they belong to a match already counted; this makes
the count non-overlapping, as Python's `str.count` is. -/
def count_skip (sub : List Char) : List Char → Nat → Nat
  | [], _ => 0
  | c :: rest, 0 =>
    if sub.isPrefixOf (c :: rest) then
      1 + count_skip sub rest (sub.length - 1)
    else
      count_skip sub rest 0
  | _ :: rest, k + 1 => count_skip sub rest k

/-- Python `s.count(sub)` for non-empty `sub`: number of non-overlapping
occurrences, scanning left to right. (All patterns counted by the source are
non-empty keyword literals.) -/
def py_count (s sub : String) : Nat :=
  count_skip sub.toList s.toList 0


/-! # Heuristic skills embedded from `skills/priority_detector.py` and
`skills/categorizer.py`

These two analyzers decide the `priority` and `category` fields of the final
record, whose enumerated-value invariant is part of the specification, so they
are embedded in full. Python float arithmetic on the `confidence` field is
modelled with exact rationals; no control flow downstream of a skill ever reads
`confidence`, so this cannot change any behaviour the theorems talk about. -/

/-- Structured result of `detect_priority(content, return_structured=True)`. -/
structure PriorityResult where
  priority : String
  confidence : ℚ
  reasoning : String
deriving Repr, DecidableEq

def urgent_indicators : List String :=
  ["urgent", "asap", "immediately", "right now", "today", "within hours",
   "crucial", "critical", "emergency", "deadline", "cannot wait",
   "high priority", "top priority", "priority 1", "time sensitive"]

def low_indicators : List String :=
  ["whenever", "whenever convenient", "take your time", "optional",
   "nice to have", "eventually", "someday", "not urgent", "whenever possible"]

def time_sensitive_words : List String :=
  ["tomorrow", "meeting", "due", "report", "review"]

/-- Model: `priority_map.get(priority, "MEDIUM")` of `detect_priority`. -/
def priority_map_get (p : String) : String :=
  if p = "urgent" then "HIGH"
  else if p = "normal_urgent" then "MEDIUM"
  else if p = "normal" then "MEDIUM"
  else if p = "low" then "LOW"
  else "MEDIUM"

/-- Model: `detect_priority(content, return_structured=True)` from
`skills/priority_detector.py`. -/
def detect_priority (content : String) : PriorityResult :=
  let content_lower := py_lower content
  let urgent_count := urgent_indicators.countP (fun i => py_in i content_lower)
  let low_count := low_indicators.countP (fun i => py_in i content_lower)
  let pc : String × ℚ :=
    if urgent_count > low_count then
      ("urgent", min (8/10 + (urgent_count : ℚ) * (5/100)) 1)
    else if low_count > urgent_count then
      ("low", min (6/10 + (low_count : ℚ) * (5/100)) (9/10))
    else
      ("normal", 6/10)
  let words := py_split_ws content
  let time_sensitive_count :=
    words.countP (fun w => time_sensitive_words.contains (py_lower w))
  let pc : String × ℚ :=
    if time_sensitive_count > 2 ∧ pc.1 = "normal" then ("normal_urgent", 7/10)
    else pc
  { priority := priority_map_get pc.1
    confidence := pc.2
    reasoning := "Found " ++ toString urgent_count ++ " urgent indicators, "
      ++ toString low_count ++ " low priority indicators, "
      ++ toString time_sensitive_count ++ " time-sensitive terms" }

/-- Structured result of `categorize_content(content, return_structured=True)`. -/
structure CategorizerResult where
  category : String
  confidence : ℚ
  reasoning : String
deriving Repr, DecidableEq

def work_keywords : List String :=
  ["meeting", "colleague", "boss", "company", "project", "client", "deadline",
   "report", "presentation", "office", "team", "department", "employee", "employer",
   "schedule", "calendar", "work", "business", "corporate", "professional",
   "performance", "review", "task", "assignment", "agenda", "conference"]

def personal_keywords : List String :=
  ["family", "friend", "parent", "child", "wife", "husband", "spouse", "relative",
   "birthday", "celebration", "vacation", "holiday", "weekend", "dinner", "party",
   "social", "personal", "relationship", "home", "hobby", "leisure", "fun"]

def study_keywords : List String :=
  ["lecture", "professor", "student", "assignment", "homework", "exam", "test",
   "course", "class", "school", "university", "college", "education", "learning",
   "research", "thesis", "paper", "study", "academic", "grade", "degree", "campus"]

def finance_keywords : List String :=
  ["money", "payment", "bill", "invoice", "bank", "account", "credit", "debit",
   "budget", "expense", "investment", "loan", "tax", "refund", "fee", "cost",
   "price", "financial", "finances", "cash", "salary", "income", "revenue"]

/-- Python `max(scores, key=scores.get)` over an association list: the first
key attaining the maximal score, in insertion order. -/
def max_by_score : String × Nat → List (String × Nat) → String × Nat
  | best, [] => best
  | best, p :: rest => max_by_score (if p.2 > best.2 then p else best) rest

/-- Model: `categorize_content(content, return_structured=True)` from
`skills/categorizer.py`. -/
def categorize_content (content : String) : CategorizerResult :=
  let content_lower := py_lower content
  let scores : List (String × Nat) :=
    [("work", (work_keywords.map (py_count content_lower)).sum),
     ("personal", (personal_keywords.map (py_count content_lower)).sum),
     ("study", (study_keywords.map (py_count content_lower)).sum),
     ("finance", (finance_keywords.map (py_count content_lower)).sum)]
  let best := max_by_score ("work", (work_keywords.map (py_count content_lower)).sum) scores.tail
  let max_category := best.1
  let max_score := best.2
  let total_words := (py_split_ws content).length
  let confidence : ℚ :=
    if total_words > 0 then min ((max_score : ℚ) / max ((total_words : ℚ) * (1/10)) 1) 1
    else 1/2
  let cc : String × ℚ :=
    if max_score = 0 then ("other", 3/10)
    else if confidence < 2/10 then
      let other_score : ℚ := ((scores.map (fun p => (p.2 : ℚ))).sum) / 4
      if (max_score : ℚ) < other_score * (3/2) then ("other", 4/10)
      else (max_category, confidence)
    else (max_category, confidence)
  let scores_str := String.intercalate ", "
    (scores.map (fun p => p.1 ++ ": " ++ toString p.2))
  { category := cc.1
    confidence := cc.2
    reasoning := "Found " ++ toString max_score
      ++ " category-specific keywords. Scores: " ++ scores_str }


/-! # Data model

Shapes of the Python dicts that flow through the pipeline.  Optional dict
values (`None` in Python) are `Option`; a task entry is either a plain string
or the structured dict produced by `extract_tasks` (`title`, `description`,
`priority`, `index`). -/

/-- One entry of a record's task list: a plain string, or the structured task
dict built by `extract_tasks(…, return_structured=True)`. -/
inductive TaskEntry where
  | str (s : String)
  | record (title description priority : String) (index : Nat)
deriving Repr, DecidableEq

/-- Python `str(task)` as used in f-strings: a string prints as itself; a dict
prints as its repr (modelled for field strings without quote characters, which
is the only use the theorems make of it). -/
def task_py_str : TaskEntry → String
  | .str s => s
  | .record t d p i =>
    "\x7b'title': '" ++ t ++ "', 'description': '" ++ d ++ "', 'priority': '"
      ++ p ++ "', 'index': " ++ toString i ++ "\x7d"

/-- Model: `task if isinstance(task, str) else task.get('title', str(task))` from
`main.py`. -/
def task_title : TaskEntry → String
  | .str s => s
  | .record t _ _ _ => t

/-- Structured result of `summarize_content(content, return_structured=True)`. -/
structure SummarizerResult where
  summary : String
  key_points : List String
  keywords : List String
deriving Repr, DecidableEq

/-- Structured result of `suggest_reply(content, sender, return_structured=True)`. -/
structure ReplyResult where
  message_type : String
  suggestions : List String
  sender : Option String
  raw_suggestions : List String
deriving Repr, DecidableEq

/-- Structured result of `extract_tasks(content, return_structured=True)`. -/
structure TasksResult where
  tasks : List TaskEntry
  count : Nat
  raw_tasks : List String
deriving Repr, DecidableEq

/-- The three analyzers whose internal scoring the specification places out of
scope (§1): they are carried as parameters satisfying their input/output
contract, so every theorem below holds for any implementation of them.
`detect_priority` and `categorize_content` are embedded concretely above
because the enumerated-value invariant depends on their final mapping step. -/
structure ExternalSkills where
  summarize_content : String → SummarizerResult
  suggest_reply : String → Option String → ReplyResult
  extract_tasks : String → TasksResult

/-- Payload of an action dict: the `data` sub-dict of `_determine_actions` /
`analyze_with_skills`. -/
inductive ActionData where
  | sendReply (reply : String) (recipient : String)
  | createTask (task : TaskEntry) (priority : String)
deriving Repr, DecidableEq

/-- An action dict: `{"type": …, "description": …, "data": …}`. -/
structure Action where
  type : String
  description : String
  data : ActionData
deriving Repr, DecidableEq

/-- The canonical merged result dict (AnalysisRecord).  `analysis` is the
LLM synthesis (absent in the direct-skills path, where the dict has no
`analysis` key, modelled as `none`). -/
structure AnalysisRecord where
  message : String
  sender : String
  analysis : Option String
  summary : Option String
  priority : String
  category : String
  suggested_reply : Option String
  tasks : List TaskEntry
  actions : List Action
deriving Repr, DecidableEq

/-- Python truthiness of an optional string (`None` and `""` are falsy). -/
def truthy_str : Option String → Bool
  | some s => s ≠ ""
  | none => false

/-- Python `sender or "Unknown"`. -/
def py_or_str (v : Option String) (d : String) : String :=
  match v with
  | some s => if s = "" then d else s
  | none => d

/-! # Tool layer (`agent/tools.py`)

A tool result is one of the five structured skill dicts or the
`{"error": …}` dict.  `tool_results` is a Python dict keyed by tool name,
modelled as an association list with dict update/lookup. -/

/-- A value stored in `tool_results`: a structured skill dict or an
`{"error": msg}` dict. -/
inductive ToolVal where
  | summ (r : SummarizerResult)
  | repl (r : ReplyResult)
  | task (r : TasksResult)
  | prio (r : PriorityResult)
  | catg (r : CategorizerResult)
  | err (msg : String)
deriving Repr, DecidableEq

/-- The registered tool names, in registry order (the keys of `TOOLS`). -/
def TOOLS_keys : List String :=
  ["summarizer", "reply_suggester", "task_extractor", "priority_detector", "categorizer"]

/-- The outcome of evaluating `tool_func(**arguments)` for a registered tool:
either the keyword binding succeeds with a string `content` (and an optional
`sender`, used only by `reply_suggester`) and the call returns, or the
evaluation raises an exception whose `str` is `msg` (bad keywords, non-string
argument values, …). -/
inductive ToolEval where
  | returns (content : String) (sender : Option String)
  | raises (msg : String)
deriving Repr, DecidableEq

/-- Dispatch of `TOOLS[tool_name]["function"]` for a registered name on a
successful call. -/
def call_registered (S : ExternalSkills) (name : String) (content : String)
    (sender : Option String) : ToolVal :=
  if name = "summarizer" then .summ (S.summarize_content content)
  else if name = "reply_suggester" then .repl (S.suggest_reply content sender)
  else if name = "task_extractor" then .task (S.extract_tasks content)
  else if name = "priority_detector" then .prio (detect_priority content)
  else if name = "categorizer" then .catg (categorize_content content)
  else .err ("Unknown tool: " ++ name)

/-- Model: `execute_tool(tool_name, arguments)` from `agent/tools.py`: unknown names
yield an error dict without raising; a raising tool function is caught and its
message returned as the error dict; otherwise the tool's structured result is
returned. -/
def execute_tool (S : ExternalSkills) (tool_name : String) (ev : ToolEval) : ToolVal :=
  if ¬ TOOLS_keys.contains tool_name then .err ("Unknown tool: " ++ tool_name)
  else
    match ev with
    | .returns content sender => call_registered S tool_name content sender
    | .raises msg => .err msg

/-- Dict update (`d[k] = v`): at most one entry per key. -/
def dset (d : List (String × ToolVal)) (k : String) (v : ToolVal) :
    List (String × ToolVal) :=
  (k, v) :: d.filter (fun p => p.1 ≠ k)

/-- Dict lookup (`d.get(k)` / `k in d`). -/
def dget (d : List (String × ToolVal)) (k : String) : Option ToolVal :=
  (d.find? (fun p => p.1 == k)).map (fun p => p.2)


/-! # Agent brain (`agent/brain.py`) -/

/-- Model: `.get("summary", "")` on a tool-result dict. -/
def tv_get_summary : ToolVal → String
  | .summ r => r.summary
  | _ => ""

/-- Model: `.get("priority", "MEDIUM")` on a tool-result dict. -/
def tv_get_priority : ToolVal → String
  | .prio r => r.priority
  | _ => "MEDIUM"

/-- Model: `.get("category", "other")` on a tool-result dict. -/
def tv_get_category : ToolVal → String
  | .catg r => r.category
  | _ => "other"

/-- Model: `.get("suggestions", [])` on a tool-result dict. -/
def tv_get_suggestions : ToolVal → List String
  | .repl r => r.suggestions
  | _ => []

/-- Model: `.get("tasks", [])` on a tool-result dict. -/
def tv_get_tasks : ToolVal → List TaskEntry
  | .task r => r.tasks
  | _ => []

/-- Model: `FTEAgent._determine_actions(analysis)` from `agent/brain.py`: one
`send_reply` dict when the suggested reply is truthy, then one `create_task`
dict per task, carrying the task entry and the record's priority. -/
def determine_actions (analysis : AnalysisRecord) : List Action :=
  let actions : List Action :=
    if truthy_str analysis.suggested_reply then
      [{ type := "send_reply"
         description := "Send suggested reply"
         data := .sendReply (analysis.suggested_reply.getD "") analysis.sender }]
    else []
  let actions :=
    if analysis.tasks.isEmpty then actions
    else actions ++ analysis.tasks.map (fun task =>
      { type := "create_task"
        description := "Create task: " ++ task_py_str task
        data := .createTask task analysis.priority })
  actions

/-- Model: `FTEAgent._structure_output(message, sender, tool_results, synthesis)`
from `agent/brain.py`. -/
def structure_output (message : String) (sender : Option String)
    (tool_results : List (String × ToolVal)) (synthesis : Option String) :
    AnalysisRecord :=
  let output : AnalysisRecord :=
    { message := message
      sender := py_or_str sender "Unknown"
      analysis := synthesis
      summary := none
      priority := "MEDIUM"
      category := "other"
      suggested_reply := none
      tasks := []
      actions := [] }
  let output :=
    match dget tool_results "summarizer" with
    | some v => { output with summary := some (tv_get_summary v) }
    | none => output
  let output :=
    match dget tool_results "priority_detector" with
    | some v => { output with priority := tv_get_priority v }
    | none => output
  let output :=
    match dget tool_results "categorizer" with
    | some v => { output with category := tv_get_category v }
    | none => output
  let output :=
    match dget tool_results "reply_suggester" with
    | some v =>
      let suggestions := tv_get_suggestions v
      if suggestions.isEmpty then output
      else { output with suggested_reply := some (suggestions.headD "") }
    | none => output
  let output :=
    match dget tool_results "task_extractor" with
    | some v => { output with tasks := tv_get_tasks v }
    | none => output
  { output with actions := determine_actions output }

/-- One tool call requested by the planning response: its call id, tool name,
and the outcome of `json.loads(tool_call.function.arguments)` — either the
raised decode error's message, or the parsed arguments presented as the
evaluation outcome of the ensuing `tool_func(**arguments)` call. -/
structure PlannedCall where
  id : String
  name : String
  parse_args : Except String ToolEval

/-- The planning response's message: requested tool calls (the empty list
models both `None` and an empty `tool_calls`) and its text content. -/
structure PlanMessage where
  tool_calls : List PlannedCall
  content : Option String

/-- The tool-execution loop of `analyze_message`: walk through the requested
calls in order, parse each call's arguments (an unhandled decode failure
aborts the whole loop), execute the tool, and store the result under the tool
name. -/
def run_tool_calls (S : ExternalSkills) :
    List PlannedCall → List (String × ToolVal) →
    Except String (List (String × ToolVal))
  | [], acc => .ok acc
  | c :: rest, acc =>
    match c.parse_args with
    | .error m => .error m
    | .ok ev => run_tool_calls S rest (dset acc c.name (execute_tool S c.name ev))

/-- Result of `analyze_message`: the structured record, or the error-payload
dict `{"error": e, "message": message, "sender": sender}`. -/
inductive AnalyzeResult where
  | record (r : AnalysisRecord)
  | errorPayload (error : String) (message : String) (sender : Option String)
deriving DecidableEq

/-- Model: `FTEAgent.analyze_message(message, sender)` from `agent/brain.py`.
The two LLM transport calls are inputs: `plan` is the planning response (or
its raised exception's message) and `synth` is the synthesis response's
content (or its raised exception's message).  Every exception inside the
`try` block surfaces as the `errorPayload` dict of the `except` clause. -/
def analyze_message (S : ExternalSkills) (plan : Except String PlanMessage)
    (synth : Except String (Option String)) (message : String)
    (sender : Option String) : AnalyzeResult :=
  match plan with
  | .error e => .errorPayload e message sender
  | .ok pm =>
    if pm.tool_calls.isEmpty then
      .record (structure_output message sender [] pm.content)
    else
      match run_tool_calls S pm.tool_calls [] with
      | .error e => .errorPayload e message sender
      | .ok tool_results =>
        match synth with
        | .error e => .errorPayload e message sender
        | .ok synthesis => .record (structure_output message sender tool_results synthesis)

/-! # Orchestrator (`main.py`) -/

/-- Model: `FTEOrchestrator.analyze_with_skills(message, sender)`: the direct
heuristic path.  All five skills are invoked on the message and their
structured outputs merged; actions are derived inline with the task title
extracted from structured task entries. -/
def analyze_with_skills (S : ExternalSkills) (message : String) (sender : String) :
    AnalysisRecord :=
  let summary_result := S.summarize_content message
  let priority_result := detect_priority message
  let category_result := categorize_content message
  let reply_result := S.suggest_reply message (some sender)
  let tasks_result := S.extract_tasks message
  let result : AnalysisRecord :=
    { sender := sender
      message := message
      analysis := none
      summary := some summary_result.summary
      priority := priority_result.priority
      category := category_result.category
      suggested_reply :=
        if reply_result.suggestions.isEmpty then none
        else some (reply_result.suggestions.headD "")
      tasks := tasks_result.tasks
      actions := [] }
  let actions : List Action :=
    if truthy_str result.suggested_reply then
      [{ type := "send_reply"
         description := "Send suggested reply"
         data := .sendReply (result.suggested_reply.getD "") sender }]
    else []
  let actions := actions ++ result.tasks.map (fun task =>
    { type := "create_task"
      description := "Create task: " ++ task_title task
      data := .createTask (.str (task_title task)) result.priority })
  { result with actions := actions }

/-- The `[Y/n]` classifier of `approval_flow`:
`input(…).strip().lower() in ['y', 'yes', '']`. -/
def approve_response (s : String) : Bool :=
  let response := py_lower (py_strip s)
  response == "y" || response == "yes" || response == ""

/-- The per-action loop of `approval_flow`: one interactive response is
consumed per action, in list order; approved actions are appended in order. -/
def approval_loop : List Action → (Nat → String) → Nat → List Action
  | [], _, _ => []
  | a :: rest, inputs, i =>
    if approve_response (inputs i) then a :: approval_loop rest inputs (i + 1)
    else approval_loop rest inputs (i + 1)

/-- Model: `FTEOrchestrator.approval_flow(result)` from `main.py`, over the action
list of the record; `inputs n` is the human's answer to the `n`-th prompt. -/
def approval_flow (actions : List Action) (inputs : Nat → String) : List Action :=
  if actions.isEmpty then [] else approval_loop actions inputs 0

/-- The audit-log dict written by `log_execution`. -/
structure AuditLogEntry where
  timestamp : String
  sender : String
  priority : String
  category : String
  actions_executed : Nat
  actions : List (String × String)
deriving Repr, DecidableEq

/-- The timestamps taken from `datetime.now()` during one execution batch:
the `%Y%m%d_%H%M%S` filename stamp, the human-readable `%Y-%m-%d %H:%M:%S`
stamp, and the ISO stamp of the audit entry. -/
structure Clock where
  file_ts : String
  human_ts : String
  iso_ts : String

/-- Observable side effects of the orchestrator: an approval prompt shown for
an action, and the three kinds of written artifacts, plus the final move of
the inbox file. -/
inductive Effect where
  | prompt_approval (description : String)
  | write_reply_draft (filename : String) (content : String)
  | write_task_file (filename : String) (content : String)
  | write_audit_log (filename : String) (entry : AuditLogEntry)
  | move_to_processed (filename : String)
deriving Repr, DecidableEq

/-- Draft file body written by `execute_send_reply`. -/
def reply_draft_content (recipient priority reply : String) (clock : Clock) : String :=
  "Reply Draft\nGenerated: " ++ clock.human_ts ++ "\nTo: " ++ recipient
    ++ "\nPriority: " ++ priority
    ++ "\n\n---\n\n" ++ reply
    ++ "\n\n---\n\nNote: This is a draft. Review and send manually.\n"

/-- Task file body written by `execute_create_task`. -/
def task_file_content (priority : String) (task : TaskEntry)
    (sender category : String) (clock : Clock) : String :=
  "Task\nCreated: " ++ clock.human_ts ++ "\nPriority: " ++ priority
    ++ "\n\n---\n\n" ++ task_py_str task
    ++ "\n\n---\n\nSource: " ++ sender ++ "\nCategory: " ++ category ++ "\n"

/-- Model: `execute_send_reply(action, result)`: the draft artifact. -/
def execute_send_reply (a : Action) (result : AnalysisRecord) (clock : Clock) :
    List Effect :=
  match a.data with
  | .sendReply reply recipient =>
    [.write_reply_draft ("reply_draft_" ++ clock.file_ts ++ ".txt")
      (reply_draft_content recipient result.priority reply clock)]
  | _ => []

/-- Model: `execute_create_task(action, result)`: the task artifact. -/
def execute_create_task (a : Action) (result : AnalysisRecord) (clock : Clock) :
    List Effect :=
  match a.data with
  | .createTask task priority =>
    [.write_task_file ("task_" ++ clock.file_ts ++ ".txt")
      (task_file_content priority task result.sender result.category clock)]
  | _ => []

/-- One iteration of the `execute_actions` loop: dispatch on the action's
`type` tag.  An action whose payload does not match its tag raises a
`KeyError` inside the handler, which the per-action `except` swallows, so it
contributes no artifact — exactly like an I/O failure. -/
def execute_one (a : Action) (result : AnalysisRecord) (clock : Clock) : List Effect :=
  if a.type = "send_reply" then execute_send_reply a result clock
  else if a.type = "create_task" then execute_create_task a result clock
  else []

/-- Model: `log_execution(actions, result)`: the single audit-log write summarizing
the batch. -/
def log_execution (actions : List Action) (result : AnalysisRecord) (clock : Clock) :
    Effect :=
  .write_audit_log ("execution_" ++ clock.file_ts ++ ".json")
    { timestamp := clock.iso_ts
      sender := result.sender
      priority := result.priority
      category := result.category
      actions_executed := actions.length
      actions := actions.map (fun a => (a.type, a.description)) }

/-- Model: `FTEOrchestrator.execute_actions(actions, result)`: each approved action
is attempted independently (`io_fails i` says whether the `i`-th attempt
raises; a raising attempt is caught, reported, and contributes no artifact),
then `log_execution` writes the one audit entry for the batch. -/
def execute_actions (actions : List Action) (result : AnalysisRecord)
    (clock : Clock) (io_fails : Nat → Bool) : List Effect :=
  ((actions.enum.map (fun p =>
      if io_fails p.1 then [] else execute_one p.2 result clock)).flatten)
    ++ [log_execution actions result clock]

/-- The actions guard `result.get("actions")` of `process_message_file` /
`run_interactive`: the error payload has no `actions` key, so `.get` yields
`None` (falsy); a record yields its (possibly empty) action list. -/
def result_actions : AnalyzeResult → List Action
  | .record r => r.actions
  | .errorPayload _ _ _ => []

/-- Model: `FTEOrchestrator.process_message_file(file_path)`, observed through its
side effects.  `analysis` is the outcome of the analysis step (`.error e`
models an exception raised inside it, caught by the method's `except` clause,
which prints the failure and produces nothing).  On a result, actions are
gated through `approval_flow` (one prompt per action) and approved ones
executed, after which the file is moved to the processed folder. -/
def process_message_file (analysis : Except String AnalyzeResult)
    (inputs : Nat → String) (clock : Clock) (io_fails : Nat → Bool)
    (filename : String) : List Effect :=
  match analysis with
  | .error _ => []
  | .ok result =>
    (if (result_actions result).isEmpty then []
     else
       let prompts := (result_actions result).map
         (fun a => Effect.prompt_approval a.description)
       let approved := approval_flow (result_actions result) inputs
       prompts ++
         (if approved.isEmpty then []
          else
            match result with
            | .record r => execute_actions approved r clock io_fails
            | .errorPayload _ _ _ => []))
    ++ [.move_to_processed filename]

/-- What the tool-execution loop can store under the `priority_detector` and
`categorizer` keys: an error dict, or that skill's structured result on some
content string. -/
def pipeline_dict (d : List (String × ToolVal)) : Prop :=
  (∀ v, dget d "priority_detector" = some v →
    (∃ m, v = .err m) ∨ ∃ c, v = .prio (detect_priority c))
  ∧ (∀ v, dget d "categorizer" = some v →
    (∃ m, v = .err m) ∨ ∃ c, v = .catg (categorize_content c))

/-- A fixed instantiation of the out-of-scope analyzers, used to instantiate
universally quantified theorems at concrete inputs. -/
def trivial_skills : ExternalSkills :=
  { summarize_content := fun _ => { summary := "", key_points := [], keywords := [] }
    suggest_reply := fun _ _ =>
      { message_type := "general", suggestions := [], sender := none, raw_suggestions := [] }
    extract_tasks := fun _ => { tasks := [], count := 0, raw_tasks := [] } }

/-- A record whose suggested reply is present but the empty string. -/
def empty_reply_record : AnalysisRecord :=
  { message := "m", sender := "Ann", analysis := none, summary := none,
    priority := "MEDIUM", category := "other", suggested_reply := some "",
    tasks := [], actions := [] }

/-- Recognizer for audit-log writes among effects. -/
def is_audit_write : Effect → Bool
  | .write_audit_log _ _ => true
  | _ => false

/-! # Shared characterization lemmas -/

/-- Lemma: `priority_map.get` can only produce the three enumerated levels. -/
theorem priority_map_get_mem (p : String) :
    priority_map_get p ∈ ["HIGH", "MEDIUM", "LOW"] := by
  unfold priority_map_get
  repeat' split
  all_goals simp

/-- The priority label of `detect_priority` is always one of the three
enumerated levels. -/
theorem detect_priority_mem (content : String) :
    (detect_priority content).priority ∈ ["HIGH", "MEDIUM", "LOW"] :=
  priority_map_get_mem _

/-- Lemma: `max(scores, key=scores.get)` returns one of the keys it was given. -/
theorem max_by_score_mem (init : String × Nat) (l : List (String × Nat)) :
    (max_by_score init l).1 = init.1 ∨ (max_by_score init l).1 ∈ l.map Prod.fst := by
  induction l generalizing init with
  | nil => left; rfl
  | cons p rest ih =>
    simp only [max_by_score]
    rcases ih (if p.2 > init.2 then p else init) with h | h
    · by_cases hc : p.2 > init.2
      · rw [if_pos hc] at h
        rw [if_pos hc]
        right
        simp [h]
      · rw [if_neg hc] at h
        rw [if_neg hc]
        left
        exact h
    · right
      simp [h]

/-- The category label of `categorize_content` is always one of the five
enumerated categories. -/
theorem categorize_content_mem (content : String) :
    (categorize_content content).category ∈
      ["work", "personal", "study", "finance", "other"] := by
  have hb := max_by_score_mem
    ("work", (work_keywords.map (py_count (py_lower content))).sum)
    [("personal", (personal_keywords.map (py_count (py_lower content))).sum),
     ("study", (study_keywords.map (py_count (py_lower content))).sum),
     ("finance", (finance_keywords.map (py_count (py_lower content))).sum)]
  simp only [List.map_cons, List.map_nil, List.mem_cons, List.not_mem_nil, or_false] at hb
  simp only [categorize_content, List.tail_cons]
  repeat' split
  all_goals rcases hb with h | h | h | h <;> simp_all

theorem dget_dset (d : List (String × ToolVal)) (k k' : String) (v : ToolVal) :
    dget (dset d k v) k' = if k' = k then some v else dget d k' := by
  unfold dget dset
  by_cases h : k' = k
  · subst h
    simp
  · rw [if_neg h]
    have hkk : (k == k') = false := by
      simpa using Ne.symm h
    simp only [List.find?_cons, hkk]
    induction d with
    | nil => rfl
    | cons p rest ih =>
      by_cases hp : p.1 = k
      · have h2 : (p.1 == k') = false := by
          rw [hp]
          exact hkk
        have h1 : (decide (p.1 ≠ k)) = false := by
          simp [hp]
        simp only [List.filter_cons, h1, Bool.false_eq_true, if_false, List.find?_cons, h2]
        exact ih
      · have h1 : (decide (p.1 ≠ k)) = true := by
          simp [hp]
        simp only [List.filter_cons, h1, if_true, List.find?_cons]
        cases hpk : (p.1 == k') <;> simp only [ih]

/-- Lemma: `_determine_actions` as one closed form: an optional leading `send_reply`
followed by one `create_task` per task, in task-list order. -/
theorem determine_actions_eq (r : AnalysisRecord) :
    determine_actions r =
      (if truthy_str r.suggested_reply then
        [{ type := "send_reply", description := "Send suggested reply",
           data := .sendReply (r.suggested_reply.getD "") r.sender }]
       else [])
      ++ r.tasks.map (fun task =>
        { type := "create_task", description := "Create task: " ++ task_py_str task,
          data := .createTask task r.priority }) := by
  unfold determine_actions
  by_cases h : r.tasks.isEmpty
  · rw [List.isEmpty_iff] at h
    simp [h]
  · simp [h]

/-- Lemma: `_determine_actions` reads only the analysis fields, never the `actions`
field of the record it is given. -/
theorem determine_actions_ignores_actions (r : AnalysisRecord) (l : List Action) :
    determine_actions { r with actions := l } = determine_actions r := rfl

/-- Field-by-field behaviour of `_structure_output`: every field is assembled
independently from its own tool result, with its own default. -/
theorem structure_output_fields (message : String) (sender : Option String)
    (tool_results : List (String × ToolVal)) (synthesis : Option String) :
    (structure_output message sender tool_results synthesis).message = message
    ∧ (structure_output message sender tool_results synthesis).sender
        = py_or_str sender "Unknown"
    ∧ (structure_output message sender tool_results synthesis).analysis = synthesis
    ∧ (structure_output message sender tool_results synthesis).summary
        = (dget tool_results "summarizer").map tv_get_summary
    ∧ (structure_output message sender tool_results synthesis).priority
        = (match dget tool_results "priority_detector" with
           | some v => tv_get_priority v
           | none => "MEDIUM")
    ∧ (structure_output message sender tool_results synthesis).category
        = (match dget tool_results "categorizer" with
           | some v => tv_get_category v
           | none => "other")
    ∧ (structure_output message sender tool_results synthesis).suggested_reply
        = (match dget tool_results "reply_suggester" with
           | some v =>
             if (tv_get_suggestions v).isEmpty then none
             else some ((tv_get_suggestions v).headD "")
           | none => none)
    ∧ (structure_output message sender tool_results synthesis).tasks
        = (match dget tool_results "task_extractor" with
           | some v => tv_get_tasks v
           | none => [])
    ∧ (structure_output message sender tool_results synthesis).actions
        = determine_actions (structure_output message sender tool_results synthesis) := by
  unfold structure_output
  repeat' split
  all_goals simp_all [determine_actions_eq]

/-- The approval loop visits each action exactly once, in list order, pairing
the `n`-th action with the `n`-th interactive response, and keeps exactly the
approved ones. -/
theorem approval_loop_eq (actions : List Action) (inputs : Nat → String) (n : Nat) :
    approval_loop actions inputs n =
      ((actions.enumFrom n).filter (fun p => approve_response (inputs p.1))).map
        Prod.snd := by
  induction actions generalizing n with
  | nil => rfl
  | cons a rest ih =>
    simp only [approval_loop, List.enumFrom, List.filter_cons]
    by_cases h : approve_response (inputs n) <;> simp [h, ih]

/-- Lemma: `approval_flow` in closed form: the ordered subsequence of actions whose
prompt was answered approvingly. -/
theorem approval_flow_eq (actions : List Action) (inputs : Nat → String) :
    approval_flow actions inputs =
      ((actions.enum.filter (fun p => approve_response (inputs p.1))).map
        Prod.snd) := by
  unfold approval_flow
  by_cases h : actions.isEmpty
  · rw [List.isEmpty_iff] at h
    subst h
    simp
  · rw [if_neg h, approval_loop_eq]
    rfl

/-- The approved actions are a subsequence of the presented ones, in original
relative order. -/
theorem approval_flow_sublist (actions : List Action) (inputs : Nat → String) :
    List.Sublist (approval_flow actions inputs) actions := by
  rw [approval_flow_eq]
  have h1 : List.Sublist
      (List.filter (fun p => approve_response (inputs p.1)) actions.enum)
      actions.enum := List.filter_sublist _
  have h2 := h1.map Prod.snd
  simpa [List.enum_map_snd] using h2

/-- If every response from the `n`-th on approves, the loop keeps everything. -/
theorem approval_loop_all_approved (actions : List Action) (inputs : Nat → String)
    (n : Nat) (h : ∀ i, n ≤ i → approve_response (inputs i) = true) :
    approval_loop actions inputs n = actions := by
  induction actions generalizing n with
  | nil => rfl
  | cons a rest ih =>
    simp only [approval_loop, h n le_rfl, if_true]
    rw [ih (n + 1) (fun i hi => h i (by omega))]

/-! # Pipeline-reachable tool results -/


theorem pipeline_dict_nil : pipeline_dict [] := by
  constructor <;> intro v hv <;> simp [dget] at hv

/-- Lemma: `execute_tool` on the name `priority_detector` yields an error dict or a
genuine `detect_priority` result. -/
theorem execute_tool_prio_shape (S : ExternalSkills) (ev : ToolEval) :
    (∃ m, execute_tool S "priority_detector" ev = .err m)
    ∨ ∃ c, execute_tool S "priority_detector" ev = .prio (detect_priority c) := by
  cases ev with
  | returns content sender => exact .inr ⟨content, rfl⟩
  | raises m => exact .inl ⟨m, rfl⟩

/-- Lemma: `execute_tool` on the name `categorizer` yields an error dict or a genuine
`categorize_content` result. -/
theorem execute_tool_catg_shape (S : ExternalSkills) (ev : ToolEval) :
    (∃ m, execute_tool S "categorizer" ev = .err m)
    ∨ ∃ c, execute_tool S "categorizer" ev = .catg (categorize_content c) := by
  cases ev with
  | returns content sender => exact .inr ⟨content, rfl⟩
  | raises m => exact .inl ⟨m, rfl⟩

/-- Storing any `execute_tool` outcome preserves the reachability invariant. -/
theorem pipeline_dict_dset (d : List (String × ToolVal)) (hd : pipeline_dict d)
    (S : ExternalSkills) (name : String) (ev : ToolEval) :
    pipeline_dict (dset d name (execute_tool S name ev)) := by
  constructor
  · intro v hv
    rw [dget_dset] at hv
    split at hv
    · rename_i hk
      cases hv
      subst hk
      exact execute_tool_prio_shape S ev
    · exact hd.1 v hv
  · intro v hv
    rw [dget_dset] at hv
    split at hv
    · rename_i hk
      cases hv
      subst hk
      exact execute_tool_catg_shape S ev
    · exact hd.2 v hv

/-- The tool-execution loop only ever produces reachable dicts. -/
theorem run_tool_calls_pipeline (S : ExternalSkills) (calls : List PlannedCall) :
    ∀ acc, pipeline_dict acc → ∀ d, run_tool_calls S calls acc = .ok d →
      pipeline_dict d := by
  induction calls with
  | nil =>
    intro acc hacc d hd
    cases hd
    exact hacc
  | cons c rest ih =>
    intro acc hacc d hd
    unfold run_tool_calls at hd
    cases hp : c.parse_args with
    | error m =>
      rw [hp] at hd
      cases hd
    | ok ev =>
      rw [hp] at hd
      exact ih _ (pipeline_dict_dset acc hacc S c.name ev) d hd

/-- A record assembled from a pipeline-reachable tool-result dict has
enumerated priority and category. -/
theorem structure_output_enums (message : String) (sender : Option String)
    (tool_results : List (String × ToolVal)) (synthesis : Option String)
    (h : pipeline_dict tool_results) :
    (structure_output message sender tool_results synthesis).priority
      ∈ ["HIGH", "MEDIUM", "LOW"]
    ∧ (structure_output message sender tool_results synthesis).category
      ∈ ["work", "personal", "study", "finance", "other"] := by
  obtain ⟨-, -, -, -, hp, hc, -, -, -⟩ :=
    structure_output_fields message sender tool_results synthesis
  constructor
  · rw [hp]
    cases hd : dget tool_results "priority_detector" with
    | none => simp
    | some v =>
      rcases h.1 v hd with ⟨m, rfl⟩ | ⟨c, rfl⟩
      · simp [tv_get_priority]
      · simpa [tv_get_priority] using detect_priority_mem c
  · rw [hc]
    cases hd : dget tool_results "categorizer" with
    | none => simp
    | some v =>
      rcases h.2 v hd with ⟨m, rfl⟩ | ⟨c, rfl⟩
      · simp [tv_get_category]
      · simpa [tv_get_category] using categorize_content_mem c


/-- C1.  Every AnalysisRecord produced by the pipeline — by
`_structure_output` in the agent path and by `analyze_with_skills` in the
direct heuristic path — has a priority field in {HIGH, MEDIUM, LOW} and a
category field in {work, personal, study, finance, other}, regardless of
which tool results are present or absent in the input. -/
theorem claim_C1_enumerated_priority_category :
    (∀ (S : ExternalSkills) (plan : Except String PlanMessage)
        (synth : Except String (Option String)) (message : String)
        (sender : Option String) (r : AnalysisRecord),
      analyze_message S plan synth message sender = .record r →
        r.priority ∈ ["HIGH", "MEDIUM", "LOW"]
        ∧ r.category ∈ ["work", "personal", "study", "finance", "other"])
    ∧ (∀ (S : ExternalSkills) (message sender : String),
      (analyze_with_skills S message sender).priority ∈ ["HIGH", "MEDIUM", "LOW"]
      ∧ (analyze_with_skills S message sender).category
        ∈ ["work", "personal", "study", "finance", "other"]) := by
  constructor
  · intro S plan synth message sender r h
    cases plan with
    | error e => simp [analyze_message] at h
    | ok pm =>
      simp only [analyze_message] at h
      by_cases hemp : pm.tool_calls.isEmpty
      · rw [if_pos hemp] at h
        injection h with h1
        subst h1
        exact structure_output_enums message sender [] pm.content pipeline_dict_nil
      · rw [if_neg hemp] at h
        cases hrun : run_tool_calls S pm.tool_calls [] with
        | error e =>
          rw [hrun] at h
          cases h
        | ok tool_results =>
          rw [hrun] at h
          cases synth with
          | error e => simp at h
          | ok synthesis =>
            simp only [] at h
            injection h with h1
            subst h1
            exact structure_output_enums message sender tool_results synthesis
              (run_tool_calls_pipeline S pm.tool_calls [] pipeline_dict_nil
                tool_results hrun)
  · intro S message sender
    have hp : (analyze_with_skills S message sender).priority
        = (detect_priority message).priority := by
      simp [analyze_with_skills]
    have hc : (analyze_with_skills S message sender).category
        = (categorize_content message).category := by
      simp [analyze_with_skills]
    rw [hp, hc]
    exact ⟨detect_priority_mem message, categorize_content_mem message⟩

/-- Witness for C1 at a concrete pipeline run (planning response with no tool
calls). -/
theorem claim_C1_enumerated_priority_category_witness :
    (structure_output "hello" (some "Ann") [] (some "done")).priority
      ∈ ["HIGH", "MEDIUM", "LOW"]
    ∧ (structure_output "hello" (some "Ann") [] (some "done")).category
      ∈ ["work", "personal", "study", "finance", "other"] :=
  claim_C1_enumerated_priority_category.1 trivial_skills
    (.ok { tool_calls := [], content := some "done" }) (.ok none)
    "hello" (some "Ann") _ rfl

/-- C8.  Action derivation is deterministic and idempotent: re-running
`_determine_actions` on the same record — in particular on the record already
carrying the first run's derived actions, which is exactly the dict
`_structure_output` hands around — yields an identical ordered sequence. -/
theorem claim_C8_determine_actions_idempotent :
    ∀ r : AnalysisRecord,
      determine_actions r = determine_actions r
      ∧ determine_actions { r with actions := determine_actions r }
        = determine_actions r :=
  fun _ => ⟨rfl, rfl⟩


/-- Counterexample to C2 as stated.  The record carries a present (non-`None`)
suggested reply, namely the empty string, yet `_determine_actions` emits no
`send_reply` action at all: the code tests Python truthiness, not presence. -/
theorem claim_C2_counterexample :
    empty_reply_record.suggested_reply ≠ none
    ∧ determine_actions empty_reply_record = [] :=
  ⟨by simp [empty_reply_record], rfl⟩

/-- C2 (amended: a `send_reply` action is emitted iff the suggested reply is
present *and non-empty*, i.e. truthy).  Action derivation emits exactly one
`send_reply` action first iff the record's suggested reply is truthy, carrying
the reply text and the record's sender as recipient, followed by exactly one
`create_task` action per entry of the record's task list, in list order, each
carrying that task and the record's priority (the direct-skills path carries
the task's title text); no other action kinds are ever emitted, and when the
suggested reply is absent the number of derived actions equals the number of
tasks. -/
theorem claim_C2_action_derivation :
    (∀ r : AnalysisRecord,
      determine_actions r =
        (if truthy_str r.suggested_reply then
          [{ type := "send_reply", description := "Send suggested reply",
             data := .sendReply (r.suggested_reply.getD "") r.sender }]
         else [])
        ++ r.tasks.map (fun task =>
          { type := "create_task",
            description := "Create task: " ++ task_py_str task,
            data := .createTask task r.priority }))
    ∧ (∀ r : AnalysisRecord, r.suggested_reply = none →
        (determine_actions r).length = r.tasks.length)
    ∧ (∀ (r : AnalysisRecord) (a : Action), a ∈ determine_actions r →
        a.type = "send_reply" ∨ a.type = "create_task")
    ∧ (∀ (S : ExternalSkills) (message sender : String),
      (analyze_with_skills S message sender).actions =
        (if truthy_str (analyze_with_skills S message sender).suggested_reply then
          [{ type := "send_reply", description := "Send suggested reply",
             data := .sendReply
               ((analyze_with_skills S message sender).suggested_reply.getD "")
               sender }]
         else [])
        ++ (analyze_with_skills S message sender).tasks.map (fun task =>
          { type := "create_task",
            description := "Create task: " ++ task_title task,
            data := .createTask (.str (task_title task))
              (analyze_with_skills S message sender).priority })) := by
  refine ⟨determine_actions_eq, ?_, ?_, ?_⟩
  · intro r h
    rw [determine_actions_eq, h]
    simp [truthy_str]
  · intro r a ha
    rw [determine_actions_eq] at ha
    rcases List.mem_append.mp ha with h | h
    · split at h
      · simp at h
        subst h
        left
        rfl
      · simp at h
    · rcases List.mem_map.mp h with ⟨t, -, rfl⟩
      right
      rfl
  · intro S message sender
    rfl

/-- Witness for C2 (amended) at a record with no reply and two tasks: the
derived action count equals the task count. -/
theorem claim_C2_action_derivation_witness :
    (determine_actions
      { message := "m", sender := "Ann", analysis := none, summary := none,
        priority := "HIGH", category := "work", suggested_reply := none,
        tasks := [.str "t1", .str "t2"], actions := [] }).length = 2 := by
  have h := claim_C2_action_derivation.2.1
    { message := "m", sender := "Ann", analysis := none, summary := none,
      priority := "HIGH", category := "work", suggested_reply := none,
      tasks := [.str "t1", .str "t2"], actions := [] } rfl
  simpa using h

/-- Counterexample to C3 as stated.  The input `"y"` is neither empty after
stripping nor a case-insensitive spelling of `"yes"`, yet the gate approves
the action: the code also accepts `"y"`. -/
theorem claim_C3_counterexample :
    approval_flow
      [{ type := "create_task", description := "Create task: t",
         data := .createTask (.str "t") "MEDIUM" }]
      (fun _ => "y")
      = [{ type := "create_task", description := "Create task: t",
           data := .createTask (.str "t") "MEDIUM" }]
    ∧ py_strip "y" ≠ ""
    ∧ py_lower (py_strip "y") ≠ "yes" :=
  ⟨rfl, by decide, by decide⟩

/-- C3 (amended: besides a stripped-empty input and any case-insensitive
spelling of "yes", any case-insensitive spelling of "y" is also approval).
The approval gate visits each action exactly once in list order, pairing the
`n`-th action with the `n`-th interactive response, approves exactly the
inputs whose stripped, lower-cased form is `"y"`, `"yes"` or `""`, and
returns the approved actions as an ordered subsequence preserving original
relative order; an all-empty-input run over N actions approves all N in
order, and a reject-first-accept-rest run returns exactly the N−1 actions
after the first, in original relative order. -/
theorem claim_C3_approval_gate :
    (∀ s : String, approve_response s = true ↔
      (py_lower (py_strip s) = "y" ∨ py_lower (py_strip s) = "yes"
        ∨ py_lower (py_strip s) = ""))
    ∧ (∀ (actions : List Action) (inputs : Nat → String),
      approval_flow actions inputs =
        ((actions.enum.filter (fun p => approve_response (inputs p.1))).map
          Prod.snd))
    ∧ (∀ (actions : List Action) (inputs : Nat → String),
      List.Sublist (approval_flow actions inputs) actions)
    ∧ (∀ actions : List Action, approval_flow actions (fun _ => "") = actions)
    ∧ (∀ actions : List Action, actions ≠ [] →
      approval_flow actions (fun i => if i = 0 then "n" else "") = actions.tail
      ∧ (approval_flow actions (fun i => if i = 0 then "n" else "")).length
        = actions.length - 1) := by
  refine ⟨?_, approval_flow_eq, approval_flow_sublist, ?_, ?_⟩
  · intro s
    unfold approve_response
    simp only [Bool.or_eq_true, beq_iff_eq]
    tauto
  · intro actions
    unfold approval_flow
    by_cases h : actions.isEmpty
    · rw [List.isEmpty_iff] at h
      subst h
      simp
    · rw [if_neg h]
      exact approval_loop_all_approved actions _ 0 (fun i _ => by decide)
  · intro actions hne
    cases actions with
    | nil => exact absurd rfl hne
    | cons a rest =>
      have hflow : approval_flow (a :: rest) (fun i => if i = 0 then "n" else "")
          = rest := by
        unfold approval_flow
        rw [if_neg (by simp)]
        show approval_loop (a :: rest) (fun i => if i = 0 then "n" else "") 0 = rest
        unfold approval_loop
        rw [if_neg (by decide)]
        exact approval_loop_all_approved rest _ 1 (fun i hi => by
          have h0 : i ≠ 0 := by omega
          simp only [if_neg h0]
          decide)
      constructor
      · simpa using hflow
      · rw [hflow]
        simp

/-- Witness for C3 (amended) at a two-action batch with a reject-first run. -/
theorem claim_C3_approval_gate_witness :
    approval_flow
      [{ type := "send_reply", description := "Send suggested reply",
         data := .sendReply "ok" "Ann" },
       { type := "create_task", description := "Create task: t",
         data := .createTask (.str "t") "LOW" }]
      (fun i => if i = 0 then "n" else "")
      = [{ type := "create_task", description := "Create task: t",
           data := .createTask (.str "t") "LOW" }] := by
  have h := (claim_C3_approval_gate.2.2.2.2
    [{ type := "send_reply", description := "Send suggested reply",
       data := .sendReply "ok" "Ann" },
     { type := "create_task", description := "Create task: t",
       data := .createTask (.str "t") "LOW" }] (by simp)).1
  simpa using h

/-- C4.  For every message and optional sender, any exception raised inside
`analyze_message` — a planning-call failure, a tool-argument parse or
execution failure, or a synthesis-call failure — is caught at the loop
boundary: the function always returns either a structured record or the
error-payload dict, and every error payload carries the original message and
sender unchanged; no exception propagates to the caller. -/
theorem claim_C4_loop_containment :
    (∀ (S : ExternalSkills) (e : String) (synth : Except String (Option String))
        (message : String) (sender : Option String),
      analyze_message S (.error e) synth message sender
        = .errorPayload e message sender)
    ∧ (∀ (S : ExternalSkills) (plan : Except String PlanMessage)
        (synth : Except String (Option String)) (message : String)
        (sender : Option String),
      (∃ r, analyze_message S plan synth message sender = .record r)
      ∨ ∃ e, analyze_message S plan synth message sender
          = .errorPayload e message sender)
    ∧ (∀ (S : ExternalSkills) (pm : PlanMessage) (e : String) (message : String)
        (sender : Option String) (tool_results : List (String × ToolVal)),
      ¬ pm.tool_calls.isEmpty →
      run_tool_calls S pm.tool_calls [] = .ok tool_results →
      analyze_message S (.ok pm) (.error e) message sender
        = .errorPayload e message sender)
    ∧ (∀ (S : ExternalSkills) (pm : PlanMessage) (e : String)
        (synth : Except String (Option String)) (message : String)
        (sender : Option String),
      ¬ pm.tool_calls.isEmpty →
      run_tool_calls S pm.tool_calls [] = .error e →
      analyze_message S (.ok pm) synth message sender
        = .errorPayload e message sender) := by
  refine ⟨fun S e synth message sender => rfl, ?_, ?_, ?_⟩
  · intro S plan synth message sender
    cases plan with
    | error e => exact .inr ⟨e, rfl⟩
    | ok pm =>
      simp only [analyze_message]
      by_cases hemp : pm.tool_calls.isEmpty
      · rw [if_pos hemp]
        exact .inl ⟨_, rfl⟩
      · rw [if_neg hemp]
        cases hrun : run_tool_calls S pm.tool_calls [] with
        | error e => exact .inr ⟨e, rfl⟩
        | ok tool_results =>
          cases synth with
          | error e => exact .inr ⟨e, rfl⟩
          | ok synthesis => exact .inl ⟨_, rfl⟩
  · intro S pm e message sender tool_results hemp hrun
    simp only [analyze_message]
    rw [if_neg hemp, hrun]
  · intro S pm e synth message sender hemp hrun
    simp only [analyze_message]
    rw [if_neg hemp, hrun]

/-- Witness for C4 at a concrete run whose synthesis call fails after one
successful tool call. -/
theorem claim_C4_loop_containment_witness :
    analyze_message trivial_skills
      (.ok { tool_calls :=
        [{ id := "call_1", name := "summarizer",
           parse_args := .ok (.returns "hello" none) }], content := none })
      (.error "connection reset") "hello" (some "Bob")
      = .errorPayload "connection reset" "hello" (some "Bob") :=
  claim_C4_loop_containment.2.2.1 trivial_skills
    { tool_calls :=
      [{ id := "call_1", name := "summarizer",
         parse_args := .ok (.returns "hello" none) }], content := none }
    "connection reset" "hello" (some "Bob")
    (dset [] "summarizer" (.summ { summary := "", key_points := [], keywords := [] }))
    (by simp) rfl

/-- C5.  `execute_tool` never raises into the caller: an unregistered tool
name yields a structured error result identifying the unknown tool, and a
registered tool whose underlying analyzer raises yields a structured error
result whose diagnostic text is the original exception message — in
particular non-empty whenever that message is. -/
theorem claim_C5_execute_tool_contained :
    (∀ (S : ExternalSkills) (name : String) (ev : ToolEval),
      name ∉ TOOLS_keys →
        execute_tool S name ev = .err ("Unknown tool: " ++ name))
    ∧ (∀ (S : ExternalSkills) (name m : String),
      name ∈ TOOLS_keys →
        execute_tool S name (.raises m) = .err m)
    ∧ (∀ (S : ExternalSkills) (name m : String),
      name ∈ TOOLS_keys → m ≠ "" →
        ∃ d, execute_tool S name (.raises m) = .err d ∧ d ≠ "") := by
  refine ⟨?_, ?_, ?_⟩
  · intro S name ev h
    unfold execute_tool
    rw [if_pos (by simpa using h)]
  · intro S name m h
    unfold execute_tool
    rw [if_neg (by simpa using h)]
  · intro S name m h hm
    unfold execute_tool
    rw [if_neg (by simpa using h)]
    exact ⟨m, rfl, hm⟩

/-- Witness for C5: an unregistered name and a raising registered analyzer. -/
theorem claim_C5_execute_tool_contained_witness :
    execute_tool trivial_skills "translator" (.raises "x")
      = .err ("Unknown tool: " ++ "translator")
    ∧ execute_tool trivial_skills "categorizer"
        (.raises "object of type int has no len()")
      = .err "object of type int has no len()" :=
  ⟨claim_C5_execute_tool_contained.1 trivial_skills "translator" (.raises "x")
      (by decide),
   claim_C5_execute_tool_contained.2.1 trivial_skills "categorizer"
      "object of type int has no len()" (by decide)⟩

/-- If every earlier call's arguments parse and one call's arguments fail to
parse, the tool-execution loop aborts with that call's decode error, whatever
results it had already collected. -/
theorem run_tool_calls_first_error (S : ExternalSkills) (pre : List PlannedCall)
    (c : PlannedCall) (post : List PlannedCall) (m : String)
    (hpre : ∀ c' ∈ pre, ∃ ev, c'.parse_args = .ok ev)
    (hc : c.parse_args = .error m) :
    ∀ acc, run_tool_calls S (pre ++ c :: post) acc = .error m := by
  induction pre with
  | nil =>
    intro acc
    simp only [List.nil_append]
    unfold run_tool_calls
    rw [hc]
  | cons c' rest ih =>
    intro acc
    obtain ⟨ev, hev⟩ := hpre c' (by simp)
    simp only [List.cons_append]
    unfold run_tool_calls
    rw [hev]
    exact ih (fun c'' hc'' => hpre c'' (by simp [hc''])) _

/-- Counterexample to C6 as stated.  A run requests two tool calls; the first
(`priority_detector`) parses and executes, the second's arguments fail to
parse.  The whole analysis aborts to the error payload: the sibling result
already collected is not preserved in any output record. -/
theorem claim_C6_counterexample :
    analyze_message trivial_skills
      (.ok ⟨[{ id := "call_1", name := "priority_detector",
               parse_args := .ok (.returns "please review the report" none) },
             { id := "call_2", name := "summarizer",
               parse_args := .error "Expecting value: line 1 column 1 (char 0)" }],
            none⟩)
      (.ok (some "synthesis")) "please review the report" (some "Bob")
      = .errorPayload "Expecting value: line 1 column 1 (char 0)"
          "please review the report" (some "Bob") := rfl

/-- C6 (amended: tool-argument parse failures are *not* contained to the
single tool call).  When the planning call requests multiple tool calls and
one call's JSON-encoded arguments fail to parse, the decode exception
escapes the tool loop to the `analyze_message` boundary: the whole round is
aborted, sibling tool results already collected are discarded, and the
error payload is returned.  (Only tool *execution* failures are contained
per call, inside `execute_tool`.) -/
theorem claim_C6_parse_failure_aborts_round :
    ∀ (S : ExternalSkills) (pre : List PlannedCall) (c : PlannedCall)
      (post : List PlannedCall) (cont : Option String)
      (synth : Except String (Option String)) (m message : String)
      (sender : Option String),
      (∀ c' ∈ pre, ∃ ev, c'.parse_args = .ok ev) →
      c.parse_args = .error m →
      analyze_message S (.ok { tool_calls := pre ++ c :: post, content := cont })
        synth message sender
        = .errorPayload m message sender := by
  intro S pre c post cont synth m message sender hpre hc
  simp only [analyze_message]
  rw [if_neg (by simp), run_tool_calls_first_error S pre c post m hpre hc]

/-- Witness for C6 (amended) at a concrete two-call round. -/
theorem claim_C6_parse_failure_aborts_round_witness :
    analyze_message trivial_skills
      (.ok ⟨[{ id := "call_1", name := "categorizer",
               parse_args := .ok (.returns "pay the invoice" none) },
             { id := "call_2", name := "task_extractor",
               parse_args := .error "Unterminated string starting at: line 1" }],
            none⟩)
      (.ok none) "pay the invoice" none
      = .errorPayload "Unterminated string starting at: line 1"
          "pay the invoice" none :=
  claim_C6_parse_failure_aborts_round trivial_skills
    [{ id := "call_1", name := "categorizer",
       parse_args := .ok (.returns "pay the invoice" none) }]
    { id := "call_2", name := "task_extractor",
      parse_args := .error "Unterminated string starting at: line 1" }
    [] none (.ok none) "Unterminated string starting at: line 1"
    "pay the invoice" none
    (by
      intro c' hc'
      simp only [List.mem_singleton] at hc'
      subst hc'
      exact ⟨.returns "pay the invoice" none, rfl⟩)
    rfl

/-- C7.  Assembly applies defaults independently per field: summary is absent
unless a summarizer tool result is present; priority is MEDIUM unless a
priority_detector result supplies its detected level — always one of
HIGH/MEDIUM/LOW (an error result supplies none and leaves the default);
category is "other" unless a categorizer result supplies its detected
category — always a known one; the suggested reply is the first element of a
reply_suggester result's suggestions list when non-empty and absent
otherwise; tasks are taken verbatim from a task_extractor result's task list,
else empty. -/
theorem claim_C7_assembly_defaults :
    ∀ (message : String) (sender : Option String)
      (tool_results : List (String × ToolVal)) (synthesis : Option String),
      (dget tool_results "summarizer" = none →
        (structure_output message sender tool_results synthesis).summary = none)
      ∧ (∀ v, dget tool_results "summarizer" = some v →
        ∃ s, (structure_output message sender tool_results synthesis).summary
          = some s)
      ∧ (dget tool_results "priority_detector" = none →
        (structure_output message sender tool_results synthesis).priority
          = "MEDIUM")
      ∧ (∀ m, dget tool_results "priority_detector" = some (.err m) →
        (structure_output message sender tool_results synthesis).priority
          = "MEDIUM")
      ∧ (∀ pr, dget tool_results "priority_detector" = some (.prio pr) →
        (structure_output message sender tool_results synthesis).priority
          = pr.priority)
      ∧ (∀ c, (detect_priority c).priority ∈ ["HIGH", "MEDIUM", "LOW"])
      ∧ (dget tool_results "categorizer" = none →
        (structure_output message sender tool_results synthesis).category
          = "other")
      ∧ (∀ m, dget tool_results "categorizer" = some (.err m) →
        (structure_output message sender tool_results synthesis).category
          = "other")
      ∧ (∀ cr, dget tool_results "categorizer" = some (.catg cr) →
        (structure_output message sender tool_results synthesis).category
          = cr.category)
      ∧ (∀ c, (categorize_content c).category
          ∈ ["work", "personal", "study", "finance", "other"])
      ∧ (dget tool_results "reply_suggester" = none →
        (structure_output message sender tool_results synthesis).suggested_reply
          = none)
      ∧ (∀ m, dget tool_results "reply_suggester" = some (.err m) →
        (structure_output message sender tool_results synthesis).suggested_reply
          = none)
      ∧ (∀ rr, dget tool_results "reply_suggester" = some (.repl rr) →
        (structure_output message sender tool_results synthesis).suggested_reply
          = if rr.suggestions.isEmpty then none
            else some (rr.suggestions.headD ""))
      ∧ (dget tool_results "task_extractor" = none →
        (structure_output message sender tool_results synthesis).tasks = [])
      ∧ (∀ m, dget tool_results "task_extractor" = some (.err m) →
        (structure_output message sender tool_results synthesis).tasks = [])
      ∧ (∀ tr, dget tool_results "task_extractor" = some (.task tr) →
        (structure_output message sender tool_results synthesis).tasks
          = tr.tasks) := by
  intro message sender tool_results synthesis
  obtain ⟨-, -, -, hsum, hpri, hcat, hrep, htas, -⟩ :=
    structure_output_fields message sender tool_results synthesis
  refine ⟨?_, ?_, ?_, ?_, ?_, detect_priority_mem, ?_, ?_, ?_,
    categorize_content_mem, ?_, ?_, ?_, ?_, ?_, ?_⟩
  · intro h
    rw [hsum, h]
    rfl
  · intro v h
    rw [hsum, h]
    exact ⟨_, rfl⟩
  · intro h
    rw [hpri, h]
  · intro m h
    rw [hpri, h]
    rfl
  · intro pr h
    rw [hpri, h]
    rfl
  · intro h
    rw [hcat, h]
  · intro m h
    rw [hcat, h]
    rfl
  · intro cr h
    rw [hcat, h]
    rfl
  · intro h
    rw [hrep, h]
  · intro m h
    rw [hrep, h]
    rfl
  · intro rr h
    rw [hrep, h]
    rfl
  · intro h
    rw [htas, h]
  · intro m h
    rw [htas, h]
    rfl
  · intro tr h
    rw [htas, h]
    rfl

/-- Witness for C7 at a concrete tool-result dict holding an error result for
the priority detector and a reply result with two suggestions. -/
theorem claim_C7_assembly_defaults_witness :
    (structure_output "m" (some "Ann")
      [("priority_detector", .err "boom"),
       ("reply_suggester",
        .repl { message_type := "general", suggestions := ["a", "b"],
                sender := some "Ann", raw_suggestions := ["a", "b"] })]
      none).priority = "MEDIUM"
    ∧ (structure_output "m" (some "Ann")
      [("priority_detector", .err "boom"),
       ("reply_suggester",
        .repl { message_type := "general", suggestions := ["a", "b"],
                sender := some "Ann", raw_suggestions := ["a", "b"] })]
      none).suggested_reply = some "a" := by
  have h := claim_C7_assembly_defaults "m" (some "Ann")
    [("priority_detector", .err "boom"),
     ("reply_suggester",
      .repl { message_type := "general", suggestions := ["a", "b"],
              sender := some "Ann", raw_suggestions := ["a", "b"] })]
    none
  refine ⟨h.2.2.2.1 "boom" rfl, ?_⟩
  have h2 := h.2.2.2.2.2.2.2.2.2.2.2.2.1
    { message_type := "general", suggestions := ["a", "b"],
      sender := some "Ann", raw_suggestions := ["a", "b"] } rfl
  simpa using h2


/-- A single attempted action never writes an audit entry. -/
theorem execute_one_no_audit (a : Action) (result : AnalysisRecord) (clock : Clock) :
    (execute_one a result clock).filter is_audit_write = [] := by
  unfold execute_one execute_send_reply execute_create_task
  repeat' split
  all_goals simp [is_audit_write]

/-- The per-action phase of a batch writes no audit entry, whatever subset of
attempts fails. -/
theorem batch_phase_no_audit (l : List (Nat × Action)) (result : AnalysisRecord)
    (clock : Clock) (io_fails : Nat → Bool) :
    ((l.map (fun p => if io_fails p.1 then [] else execute_one p.2 result clock)).flatten).filter
      is_audit_write = [] := by
  induction l with
  | nil => rfl
  | cons p rest ih =>
    simp only [List.map_cons, List.flatten_cons, List.filter_append, ih,
      List.append_nil]
    split
    · rfl
    · exact execute_one_no_audit p.2 result clock

/-- C9.  After all actions of an approved batch have been attempted — each
action's execution failure being caught per action without stopping the
batch — exactly one audit log entry is written for the batch, as a single
JSON object containing the timestamp, the record's sender, priority and
category, the count of the batch's actions, and for each action its type tag
and description. -/
theorem claim_C9_single_audit_entry :
    ∀ (actions : List Action) (result : AnalysisRecord) (clock : Clock)
      (io_fails : Nat → Bool),
      (execute_actions actions result clock io_fails).filter is_audit_write
        = [log_execution actions result clock]
      ∧ (execute_actions actions result clock io_fails).getLast?
        = some (log_execution actions result clock)
      ∧ log_execution actions result clock
        = .write_audit_log ("execution_" ++ clock.file_ts ++ ".json")
            { timestamp := clock.iso_ts
              sender := result.sender
              priority := result.priority
              category := result.category
              actions_executed := actions.length
              actions := actions.map (fun a => (a.type, a.description)) } := by
  intro actions result clock io_fails
  refine ⟨?_, ?_, rfl⟩
  · unfold execute_actions
    rw [List.filter_append, batch_phase_no_audit]
    simp [is_audit_write, log_execution]
  · unfold execute_actions
    exact List.getLast?_concat _

/-- C10.  If analysis of a message fails — the analysis step raises inside
`process_message_file`, or the analyzer returns its error payload, which
carries no actions — then no approval prompt occurs and no side-effecting
artifact is produced for that message: no reply draft file, no task file, and
no audit log entry is written. -/
theorem claim_C10_failed_analysis_no_artifacts :
    (∀ (e : String) (inputs : Nat → String) (clock : Clock)
        (io_fails : Nat → Bool) (filename : String),
      process_message_file (.error e) inputs clock io_fails filename = [])
    ∧ (∀ (err m : String) (s : Option String) (inputs : Nat → String)
        (clock : Clock) (io_fails : Nat → Bool) (filename : String),
      process_message_file (.ok (.errorPayload err m s)) inputs clock io_fails
        filename = [.move_to_processed filename])
    ∧ (∀ (err m : String) (s : Option String) (inputs : Nat → String)
        (clock : Clock) (io_fails : Nat → Bool) (filename : String)
        (e : Effect),
      e ∈ process_message_file (.ok (.errorPayload err m s)) inputs clock
        io_fails filename →
      (∀ d, e ≠ .prompt_approval d)
      ∧ (∀ f c, e ≠ .write_reply_draft f c)
      ∧ (∀ f c, e ≠ .write_task_file f c)
      ∧ (∀ f en, e ≠ .write_audit_log f en)) := by
  refine ⟨fun _ _ _ _ _ => rfl, fun _ _ _ _ _ _ _ => rfl, ?_⟩
  intro err m s inputs clock io_fails filename e he
  have : e = .move_to_processed filename := by
    simpa [process_message_file, result_actions] using he
  subst this
  refine ⟨?_, ?_, ?_, ?_⟩ <;> intros <;> simp

/-- Witness for C10: the only effect of processing a message whose analysis
returned the error payload is the file relocation — not a prompt, draft,
task, or audit write. -/
theorem claim_C10_failed_analysis_no_artifacts_witness :
    (∀ d, Effect.move_to_processed "msg_from_bob.txt" ≠ .prompt_approval d)
    ∧ (∀ f c, Effect.move_to_processed "msg_from_bob.txt" ≠ .write_reply_draft f c)
    ∧ (∀ f c, Effect.move_to_processed "msg_from_bob.txt" ≠ .write_task_file f c)
    ∧ (∀ f en, Effect.move_to_processed "msg_from_bob.txt" ≠ .write_audit_log f en) :=
  claim_C10_failed_analysis_no_artifacts.2.2 "boom" "m" none (fun _ => "")
    { file_ts := "20250101_000000", human_ts := "2025-01-01 00:00:00",
      iso_ts := "2025-01-01T00:00:00" }
    (fun _ => false) "msg_from_bob.txt" (.move_to_processed "msg_from_bob.txt")
    (by simp [process_message_file, result_actions])

end FTE
